import Mathlib

/-!
Verification of the core logic of `esp32_wifi_ble_advanced`
(`src/esp32_wifi_ble_config_advanced.cpp`, `src/ble_WiFiManager.h`).

The embedding below translates the repository's pure decision logic into
Lean definitions:

* the repeating-key XOR codec used by `MyCallbackHandler::onWrite` /
  `onRead` ("Decode data" / "encode the data" loops);
* the scan-match-and-select loop of `Ble_WiFiManager::scanWiFi`;
* the BLE write handler `MyCallbackHandler::onWrite` (credential set,
  erase, reset branches) and the credential load performed in `setup()`;
* the asynchronous WiFi event callbacks `gotIP` / `lostCon`;
* one iteration of the status notification task `sendBLEdata`.

Machine integers are modelled as `Nat`/`Int` with explicit wrapping where
the C types wrap (`byte foundAP` is taken mod 256, `int8_t` RSSI values
go through `toInt8`).  Side effects on the ESP32 platform (NVS flash
erase, `esp_restart`) are modelled as boolean effect flags on the state.
JSON parsing is performed by the external ArduinoJson library, which is
not part of this repository; the handler is therefore embedded from the
`jsonIn.success()` test onward, taking the parse result (`Option JObj`)
as its input.
-/

namespace Esp32WifiBle

/-! ### Codec: repeating-key XOR (onWrite "Decode data" / onRead "encode the data") -/

/-- One pass of the XOR loop, carrying the running `keyIndex`.
Mirrors `value[index] = value[index] ^ apName[keyIndex]; keyIndex++;
if (keyIndex >= strlen(apName)) keyIndex = 0;`. -/
def xorCodecAux (key : List Nat) : Nat → List Nat → List Nat
  | _, [] => []
  | keyIndex, b :: rest =>
    (b ^^^ key.getD keyIndex 0) ::
      xorCodecAux key (if keyIndex + 1 ≥ key.length then 0 else keyIndex + 1) rest

/-- The XOR codec as run by both `onWrite` (decode) and `onRead` (encode):
the same loop starting at `keyIndex = 0`. -/
def xorCodec (key data : List Nat) : List Nat :=
  xorCodecAux key 0 data

/-! ### Scan entries and the selection loop of `scanWiFi` -/

/-- One network discovered by a scan: its SSID and its RSSI as reported
by `WiFi.SSID(index)` / `WiFi.RSSI(index)`. -/
structure ScanEntry where
  ssid : String
  rssi : Int
deriving DecidableEq

/-- Conversion of a signal-strength value to the C `int8_t` it is stored
into (`int8_t rssiPrim = WiFi.RSSI(index);`). -/
def toInt8 (n : Int) : Int :=
  (n + 128) % 256 - 128

/-- The loop state of `scanWiFi`: the `byte foundAP` counter, the
`foundPrim` flag, and the two recorded `int8_t` RSSI values.  `rssiPrim`
and `rssiSec` are uninitialised in the C source, so the embedding keeps
them abstract via the initial values fed to `scanLoop`. -/
structure ScanState where
  foundAP : Nat
  foundPrim : Bool
  rssiPrim : Int
  rssiSec : Int
deriving DecidableEq

/-- One iteration of the `for (int index = 0; index < apNum; index++)`
loop body of `scanWiFi`: both `strcmp` tests run on every entry, each
match bumps `foundAP` and overwrites the recorded RSSI. -/
def scanStep (prim sec : String) (st : ScanState) (e : ScanEntry) : ScanState :=
  let st1 :=
    if e.ssid == prim then
      { st with foundAP := (st.foundAP + 1) % 256, foundPrim := true,
                rssiPrim := toInt8 e.rssi }
    else st
  if e.ssid == sec then
    { st1 with foundAP := (st1.foundAP + 1) % 256, rssiSec := toInt8 e.rssi }
  else st1

/-- The whole matching loop of `scanWiFi`, starting from `foundAP = 0`,
`foundPrim = false` and the (uninitialised, hence parametric) RSSI
values `r0`, `s0`. -/
def scanLoop (prim sec : String) (entries : List ScanEntry) (r0 s0 : Int) : ScanState :=
  entries.foldl (scanStep prim sec) ⟨0, false, r0, s0⟩

/-- The decision of `scanWiFi`: `found` is the function's return value,
`usePrimary` the resulting `usePrimAP` member (which keeps its previous
value `usePrim0` when nothing was found). -/
structure SelectionOutcome where
  found : Bool
  usePrimary : Bool
deriving DecidableEq

/-- The `switch (foundAP)` at the end of `scanWiFi`: case 0 returns
false, case 1 selects by `foundPrim`, the default case compares the
recorded RSSI values with strict `>`. -/
def selectOutcome (prim sec : String) (entries : List ScanEntry)
    (r0 s0 : Int) (usePrim0 : Bool) : SelectionOutcome :=
  match (scanLoop prim sec entries r0 s0).foundAP with
  | 0 => ⟨false, usePrim0⟩
  | 1 => ⟨true, (scanLoop prim sec entries r0 s0).foundPrim⟩
  | _ + 2 => ⟨true, decide ((scanLoop prim sec entries r0 s0).rssiPrim >
      (scanLoop prim sec entries r0 s0).rssiSec)⟩

/-- Total number of `strcmp` matches the loop counts: per entry, one for
a primary match plus one for a secondary match. -/
def matchCount (prim sec : String) (entries : List ScanEntry) : Nat :=
  entries.countP (fun e => e.ssid == prim) + entries.countP (fun e => e.ssid == sec)

/-- Specification-side description of what the loop records for a
candidate: the `int8_t` RSSI of the *last* scan entry whose SSID matches,
or the fallback (the uninitialised value) when none matches. -/
def lastMatchRssi (c : String) (entries : List ScanEntry) (dflt : Int) : Int :=
  ((entries.filter (fun e => e.ssid == c)).map (fun e => toInt8 e.rssi)).getLastD dflt

/-- Specification-side description of the *first* matching entry's
recorded RSSI, as the spec sentence for the recorded strength words it. -/
def firstMatchRssi (c : String) (entries : List ScanEntry) (dflt : Int) : Int :=
  (((entries.filter (fun e => e.ssid == c)).map (fun e => toInt8 e.rssi)).head?).getD dflt

/-! ### JSON values as far as the handler inspects them -/

/-- A JSON value as the write handler uses it: `containsKey` presence
tests and `as<String>` reads.  ArduinoJson's `as<String>` prints
non-string scalars. -/
inductive JVal
  | str (s : String)
  | boolean (b : Bool)
  | num (n : Int)
deriving DecidableEq

/-- A parsed JSON object: an association list of named values (the JSON
payloads of this protocol are flat objects). -/
def JObj := List (String × JVal)

instance : DecidableEq JObj := inferInstanceAs (DecidableEq (List (String × JVal)))

/-- Presence test `jsonIn.containsKey(k)`. -/
def containsKey (j : JObj) (k : String) : Bool :=
  j.any (fun p => p.1 == k)

/-- Lookup `jsonIn[k]` for a key already checked present (the `.str ""`
default is never reached by the handler, which only reads checked keys). -/
def getVal (j : JObj) (k : String) : JVal :=
  match j.find? (fun p => p.1 == k) with
  | some p => p.2
  | none => .str ""

/-- Conversion `as<String>()` on the retrieved value. -/
def JVal.asString : JVal → String
  | .str s => s
  | .boolean b => if b then "true" else "false"
  | .num n => toString n

/-! ### Device state touched by the write handler and `setup()` -/

/-- The `Preferences` namespace `"WiFiCred"`: the four credential keys
and the `valid` flag, with `getString`/`getBool` defaults `""`/`false`
standing for absent keys.  `preferences.clear()` resets everything to
those defaults. -/
structure PrefStore where
  ssidPrim : String
  ssidSec : String
  pwPrim : String
  pwSec : String
  valid : Bool
deriving DecidableEq

/-- A `PrefStore` with no keys (all `getString`/`getBool` defaults). -/
def emptyPrefs : PrefStore :=
  ⟨"", "", "", "", false⟩

/-- The mutable state the write handler and `setup()` touch: the
in-memory credential strings, `hasCredentials`, `connStatusChanged`,
the persistent store, and two effect flags recording whether
`nvs_flash_erase()` / `esp_restart()` were invoked. -/
structure DeviceState where
  ssidPrim : String
  pwPrim : String
  ssidSec : String
  pwSec : String
  hasCredentials : Bool
  connStatusChanged : Bool
  prefs : PrefStore
  flashErased : Bool
  restarted : Bool
deriving DecidableEq

/-- Device state at first boot: empty strings, cleared flags, fresh
preferences namespace. -/
def initialState : DeviceState :=
  ⟨"", "", "", "", false, false, emptyPrefs, false, false⟩

/-- The credential-set shape test of `onWrite`:
`containsKey("ssidPrim") && containsKey("pwPrim") &&
containsKey("ssidSec") && containsKey("pwSec")`. -/
def fourKeyShape (j : JObj) : Bool :=
  containsKey j "ssidPrim" && containsKey j "pwPrim" &&
    containsKey j "ssidSec" && containsKey j "pwSec"

/-- Handler `MyCallbackHandler::onWrite` from the `jsonIn.success()` test on.
`parsed = none` is a failed `parseObject` ("Received invalid JSON"
branch: no mutation).  The three shape branches are tried in source
order; a successful parse matching none of them falls through with no
mutation. -/
def onWrite (st : DeviceState) (parsed : Option JObj) : DeviceState :=
  match parsed with
  | none => st
  | some j =>
    if fourKeyShape j then
      let sp := (getVal j "ssidPrim").asString
      let pp := (getVal j "pwPrim").asString
      let ss := (getVal j "ssidSec").asString
      let ps := (getVal j "pwSec").asString
      { st with ssidPrim := sp, pwPrim := pp, ssidSec := ss, pwSec := ps,
                prefs := ⟨sp, ss, pp, ps, true⟩,
                connStatusChanged := true, hasCredentials := true }
    else if containsKey j "erase" then
      { st with prefs := emptyPrefs,
                connStatusChanged := true, hasCredentials := false,
                ssidPrim := "", pwPrim := "", ssidSec := "", pwSec := "",
                flashErased := true }
    else if containsKey j "reset" then
      { st with restarted := true }
    else st

/-- The credential-loading part of `setup()`: if the stored `valid`
flag is set, copy the four stored strings into memory and set
`hasCredentials` unless the source's validity test rejects them.  The
test is reproduced exactly as written, including its double check of
`pwPrim` (and missing check of `pwSec`). -/
def setupLoad (st : DeviceState) : DeviceState :=
  if st.prefs.valid then
    let sp := st.prefs.ssidPrim
    let ss := st.prefs.ssidSec
    let pp := st.prefs.pwPrim
    let ps := st.prefs.pwSec
    let st1 := { st with ssidPrim := sp, ssidSec := ss, pwPrim := pp, pwSec := ps }
    if sp == "" || pp == "" || ss == "" || pp == "" then st1
    else { st1 with hasCredentials := true }
  else st

/-- One credential-channel operation: an inbound write (with its parse
result) or the startup load. -/
inductive CredOp
  | write (parsed : Option JObj)
  | load
deriving DecidableEq

/-- Apply one credential-channel operation to the device state. -/
def applyOp (st : DeviceState) : CredOp → DeviceState
  | .write p => onWrite st p
  | .load => setupLoad st

/-! ### Asynchronous WiFi event callbacks `gotIP` / `lostCon` -/

/-- The shared connection status the callbacks mutate: `isConnected`,
`connStatusChanged`, and the status word `sendVal`
(0 = disconnected, 1 = primary, 2 = secondary). -/
structure ConnStatus where
  isConnected : Bool
  connStatusChanged : Bool
  sendVal : Nat
deriving DecidableEq

/-- The initial values of the globals: `isConnected = false`,
`connStatusChanged = false`, `sendVal = 0x0000`. -/
def initConnStatus : ConnStatus :=
  ⟨false, false, 0⟩

/-- A platform network event: got an IP while associated to
`connectedSSID` (`WiFi.SSID()` at callback time), or lost the
connection. -/
inductive NetEvent
  | gotIP (connectedSSID : String)
  | lostCon
deriving DecidableEq

/-- One atomic run of a WiFi event callback.  `gotIP` sets
`isConnected` and matches the associated SSID against the configured
candidates to pick the status word (leaving it unchanged when neither
matches); `lostCon` clears `isConnected` and zeroes the status word. -/
def netStep (ssidPrim ssidSec : String) (s : ConnStatus) : NetEvent → ConnStatus
  | .gotIP connectedSSID =>
    let s1 := { s with isConnected := true, connStatusChanged := true }
    if connectedSSID == ssidPrim then { s1 with sendVal := 1 }
    else if connectedSSID == ssidSec then { s1 with sendVal := 2 }
    else s1
  | .lostCon => { s with isConnected := false, connStatusChanged := true, sendVal := 0 }

/-- The connection status after a sequence of callback firings starting
from the initial globals. -/
def runEvents (ssidPrim ssidSec : String) (evs : List NetEvent) : ConnStatus :=
  evs.foldl (netStep ssidPrim ssidSec) initConnStatus

/-! ### One firing of the status-notification task `sendBLEdata` -/

/-- Observable actions of one iteration of the `while (1)` loop of
`sendBLEdata`: whether `setValue` ran, whether `notify()` was pushed,
the next value of the local `notificationFlag`, and which log line (if
any) was printed. -/
structure PublisherStep where
  wroteValue : Bool
  didNotify : Bool
  notificationFlag : Bool
  loggedStart : Bool
  loggedFail : Bool
deriving DecidableEq

/-- One iteration of `sendBLEdata`: guarded by `deviceConnected`, it
reads the 0x2902 descriptor byte (`testNotify`) and calls `notify()`
exactly when that byte equals 1. -/
def sendBLEdataIter (deviceConnected : Bool) (testNotify : Nat)
    (notificationFlag : Bool) : PublisherStep :=
  if deviceConnected then
    if testNotify == 1 then
      { wroteValue := true, didNotify := true, notificationFlag := true,
        loggedStart := !notificationFlag, loggedFail := false }
    else
      { wroteValue := true, didNotify := false, notificationFlag := false,
        loggedStart := false, loggedFail := notificationFlag }
  else
    { wroteValue := false, didNotify := false, notificationFlag := notificationFlag,
      loggedStart := false, loggedFail := false }

/-! ### Credential-state invariant (claim C5) and helper predicates -/

/-- A device state whose credential data is fully empty: all four
in-memory fields empty, `hasCredentials` clear, the persisted store
empty and not marked valid. -/
def fullyEmptyState (st : DeviceState) : Prop :=
  st.ssidPrim = "" ∧ st.pwPrim = "" ∧ st.ssidSec = "" ∧ st.pwSec = "" ∧
    st.hasCredentials = false ∧ st.prefs.ssidPrim = "" ∧ st.prefs.ssidSec = "" ∧
    st.prefs.pwPrim = "" ∧ st.prefs.pwSec = "" ∧ st.prefs.valid = false

/-- A device state whose credential data is fully populated: all four
in-memory fields non-empty, `hasCredentials` set, the persisted store
holding four non-empty strings and marked valid. -/
def fullyPopulatedState (st : DeviceState) : Prop :=
  st.ssidPrim ≠ "" ∧ st.pwPrim ≠ "" ∧ st.ssidSec ≠ "" ∧ st.pwSec ≠ "" ∧
    st.hasCredentials = true ∧ st.prefs.ssidPrim ≠ "" ∧ st.prefs.ssidSec ≠ "" ∧
    st.prefs.pwPrim ≠ "" ∧ st.prefs.pwSec ≠ "" ∧ st.prefs.valid = true

/-- The all-or-nothing credential invariant claimed by the spec. -/
def credInv (st : DeviceState) : Prop :=
  fullyEmptyState st ∨ fullyPopulatedState st

instance (st : DeviceState) : Decidable (fullyEmptyState st) := by
  unfold fullyEmptyState; infer_instance

instance (st : DeviceState) : Decidable (fullyPopulatedState st) := by
  unfold fullyPopulatedState; infer_instance

instance (st : DeviceState) : Decidable (credInv st) := by
  unfold credInv; infer_instance

/-- A write payload is benign when, if it matches the credential-set
shape, all four field values it carries are non-empty strings. -/
def goodWrite : Option JObj → Prop
  | none => True
  | some j =>
    fourKeyShape j = true →
      (getVal j "ssidPrim").asString ≠ "" ∧ (getVal j "pwPrim").asString ≠ "" ∧
        (getVal j "ssidSec").asString ≠ "" ∧ (getVal j "pwSec").asString ≠ ""

/-- A credential-channel operation is benign when any credential-set
message it carries has four non-empty field values. -/
def goodOp : CredOp → Prop
  | .write p => goodWrite p
  | .load => True

instance (p : Option JObj) : Decidable (goodWrite p) := by
  cases p <;> (unfold goodWrite; infer_instance)

instance (op : CredOp) : Decidable (goodOp op) := by
  cases op <;> (unfold goodOp; infer_instance)

/-! ### Concrete sample inputs used to instantiate the theorems -/

/-- Sample erase directive payload. -/
def eraseMsg : JObj := [("erase", JVal.boolean true)]

/-- Sample payload matching none of the three shapes. -/
def junkMsg : JObj := [("foo", JVal.str "bar")]

/-- Sample credential-set payload with four non-empty fields. -/
def goodCredMsg : JObj :=
  [("ssidPrim", JVal.str "net1"), ("pwPrim", JVal.str "pw1"),
   ("ssidSec", JVal.str "net2"), ("pwSec", JVal.str "pw2")]

/-- Sample payload carrying the four credential keys plus an erase key. -/
def mixedCredEraseMsg : JObj :=
  [("ssidPrim", JVal.str "net1"), ("pwPrim", JVal.str "pw1"),
   ("ssidSec", JVal.str "net2"), ("pwSec", JVal.str "pw2"),
   ("erase", JVal.boolean true)]

/-- Sample credential-set payload with an empty primary SSID. -/
def partialCredMsg : JObj :=
  [("ssidPrim", JVal.str ""), ("pwPrim", JVal.str "pw1"),
   ("ssidSec", JVal.str "net2"), ("pwSec", JVal.str "pw2")]

/-- Sample fully-populated device state. -/
def sampleState : DeviceState :=
  ⟨"net1", "pw1", "net2", "pw2", true, false,
    ⟨"net1", "net2", "pw1", "pw2", true⟩, false, false⟩

/-- Sample benign operation sequence: set credentials, reboot-load,
then erase. -/
def sampleOps : List CredOp :=
  [CredOp.write (some goodCredMsg), CredOp.load, CredOp.write (some eraseMsg)]

/-! ## Helper lemmas -/

/-- The XOR pass is an involution from any starting key index: both
passes advance `keyIndex` identically and XOR twice with the same key
byte. -/
theorem xorCodecAux_involutive (key : List Nat) (i : Nat) (x : List Nat) :
    xorCodecAux key i (xorCodecAux key i x) = x := by
  induction x generalizing i with
  | nil => rfl
  | cons b rest ih =>
    simp [xorCodecAux, Nat.xor_cancel_right, ih]

/-- One callback firing preserves the claim-C8 invariant: `gotIP`
leaves the state connected, `lostCon` zeroes the status word. -/
theorem netStep_inv (p s : String) (st : ConnStatus) (e : NetEvent)
    (_h : st.isConnected = false → st.sendVal = 0) :
    (netStep p s st e).isConnected = false → (netStep p s st e).sendVal = 0 := by
  cases e with
  | gotIP ssid =>
    simp only [netStep]
    split
    · intro hfalse; simp at hfalse
    · split
      · intro hfalse; simp at hfalse
      · intro hfalse; simp at hfalse
  | lostCon => intro _; rfl

/-- The claim-C8 invariant survives any sequence of callback firings. -/
theorem netFold_inv (p s : String) (evs : List NetEvent) (st : ConnStatus)
    (h : st.isConnected = false → st.sendVal = 0) :
    (evs.foldl (netStep p s) st).isConnected = false →
      (evs.foldl (netStep p s) st).sendVal = 0 := by
  induction evs generalizing st with
  | nil => exact h
  | cons e rest ih =>
    rw [List.foldl_cons]
    exact ih _ (netStep_inv p s st e h)

/-! ## Claim theorems -/

/-- C1: the credential codec is self-inverse: for every byte sequence
`x` and every non-empty key `k`, decoding the encoding of `x` under `k`
(byte-wise XOR against `k` cycled over the input, key index wrapping to
0 after the key's length) yields `x` again. -/
theorem codec_roundtrip (k x : List Nat) (_hk : k ≠ []) :
    xorCodec k (xorCodec k x) = x :=
  xorCodecAux_involutive k 0 x

/-- Witness for C1 at the concrete key `[2, 3, 5]` and data
`[10, 20, 30, 40]`. -/
theorem codec_roundtrip_witness :
    ([2, 3, 5] : List Nat) ≠ [] ∧
      xorCodec [2, 3, 5] (xorCodec [2, 3, 5] [10, 20, 30, 40]) = [10, 20, 30, 40] :=
  ⟨by decide, codec_roundtrip [2, 3, 5] [10, 20, 30, 40] (by decide)⟩

/-- C9: on every firing of the status-publisher loop, a notification
push happens exactly when the device is BLE-connected and the 0x2902
descriptor byte equals 1; with no subscriber registered, no push is
attempted. -/
theorem publisher_push_gating (deviceConnected : Bool) (testNotify : Nat)
    (notificationFlag : Bool) :
    (sendBLEdataIter deviceConnected testNotify notificationFlag).didNotify =
      (deviceConnected && testNotify == 1) := by
  cases deviceConnected with
  | false => rfl
  | true =>
    cases h : (testNotify == 1) <;> simp [sendBLEdataIter, h]

/-- C8: in every state reachable from the initial globals through the
asynchronous `gotIP` / `lostCon` callbacks (each taken as one atomic
step), the status word is 0x0000 whenever `isConnected` is false. -/
theorem disconnected_status_word_zero (ssidPrim ssidSec : String)
    (evs : List NetEvent)
    (h : (runEvents ssidPrim ssidSec evs).isConnected = false) :
    (runEvents ssidPrim ssidSec evs).sendVal = 0 :=
  netFold_inv ssidPrim ssidSec evs initConnStatus (fun _ => rfl) h

/-- Witness for C8 on the event sequence connect-to-primary then lose
the connection. -/
theorem disconnected_status_word_zero_witness :
    (runEvents "P" "S" [NetEvent.gotIP "P", NetEvent.lostCon]).isConnected = false ∧
      (runEvents "P" "S" [NetEvent.gotIP "P", NetEvent.lostCon]).sendVal = 0 :=
  ⟨by decide,
    disconnected_status_word_zero "P" "S" [NetEvent.gotIP "P", NetEvent.lostCon]
      (by decide)⟩

/-- C3: an inbound payload whose decoded plaintext fails to parse, or
parses to an object matching none of the three message shapes (four
credential fields, erase flag, reset flag), mutates nothing: the whole
device state — stored credentials, in-memory strings, `hasCredentials`,
`connStatusChanged` — is unchanged. -/
theorem invalid_write_no_mutation (st : DeviceState) (parsed : Option JObj)
    (h : parsed = none ∨ ∃ j, parsed = some j ∧ fourKeyShape j = false ∧
        containsKey j "erase" = false ∧ containsKey j "reset" = false) :
    onWrite st parsed = st := by
  rcases h with h | ⟨j, rfl, h4, he, hr⟩
  · subst h; rfl
  · simp [onWrite, h4, he, hr]

/-- Witness for C3 on a parse failure and on a well-formed object with
an unknown key. -/
theorem invalid_write_no_mutation_witness :
    ((none : Option JObj) = none ∨ ∃ j, (none : Option JObj) = some j ∧
        fourKeyShape j = false ∧ containsKey j "erase" = false ∧
        containsKey j "reset" = false) ∧
      onWrite sampleState (some junkMsg) = sampleState :=
  ⟨Or.inl rfl,
    invalid_write_no_mutation sampleState (some junkMsg)
      (Or.inr ⟨junkMsg, rfl, by decide, by decide, by decide⟩)⟩

/-- C4: processing an erase directive (a parsed payload that lacks the
four-credential shape and carries the `erase` key) clears, from every
prior state, all four in-memory fields, clears the persisted store with
its validity flag, clears `hasCredentials` and sets the change-signal
flag. -/
theorem erase_clears_everything (st : DeviceState) (j : JObj)
    (h4 : fourKeyShape j = false) (he : containsKey j "erase" = true) :
    (onWrite st (some j)).ssidPrim = "" ∧ (onWrite st (some j)).pwPrim = "" ∧
      (onWrite st (some j)).ssidSec = "" ∧ (onWrite st (some j)).pwSec = "" ∧
      (onWrite st (some j)).hasCredentials = false ∧
      (onWrite st (some j)).prefs = emptyPrefs ∧
      (onWrite st (some j)).connStatusChanged = true := by
  simp [onWrite, h4, he]

/-- Witness for C4: erasing from a fully-populated state. -/
theorem erase_clears_everything_witness :
    fourKeyShape eraseMsg = false ∧ containsKey eraseMsg "erase" = true ∧
      ((onWrite sampleState (some eraseMsg)).ssidPrim = "" ∧
        (onWrite sampleState (some eraseMsg)).pwPrim = "" ∧
        (onWrite sampleState (some eraseMsg)).ssidSec = "" ∧
        (onWrite sampleState (some eraseMsg)).pwSec = "" ∧
        (onWrite sampleState (some eraseMsg)).hasCredentials = false ∧
        (onWrite sampleState (some eraseMsg)).prefs = emptyPrefs ∧
        (onWrite sampleState (some eraseMsg)).connStatusChanged = true) :=
  ⟨by decide, by decide,
    erase_clears_everything sampleState eraseMsg (by decide) (by decide)⟩

/-- C10: a decoded message carrying all four credential keys and
additionally an erase or reset key is processed purely as a
credential-set message: the four fields are stored in memory and in the
persisted store with the validity flag set, the change flag is set, and
neither the flash-erase nor the restart side effect of the other two
directives happens (branch order gives the credential shape priority). -/
theorem credential_shape_priority (st : DeviceState) (j : JObj)
    (h4 : fourKeyShape j = true)
    (_hex : containsKey j "erase" = true ∨ containsKey j "reset" = true) :
    (onWrite st (some j)).ssidPrim = (getVal j "ssidPrim").asString ∧
      (onWrite st (some j)).pwPrim = (getVal j "pwPrim").asString ∧
      (onWrite st (some j)).ssidSec = (getVal j "ssidSec").asString ∧
      (onWrite st (some j)).pwSec = (getVal j "pwSec").asString ∧
      (onWrite st (some j)).prefs =
        ⟨(getVal j "ssidPrim").asString, (getVal j "ssidSec").asString,
          (getVal j "pwPrim").asString, (getVal j "pwSec").asString, true⟩ ∧
      (onWrite st (some j)).hasCredentials = true ∧
      (onWrite st (some j)).connStatusChanged = true ∧
      (onWrite st (some j)).flashErased = st.flashErased ∧
      (onWrite st (some j)).restarted = st.restarted := by
  simp [onWrite, h4]

/-- Witness for C10: a payload with the four credential keys plus an
erase key, applied to the initial state. -/
theorem credential_shape_priority_witness :
    fourKeyShape mixedCredEraseMsg = true ∧
      containsKey mixedCredEraseMsg "erase" = true ∧
      ((onWrite initialState (some mixedCredEraseMsg)).ssidPrim =
          (getVal mixedCredEraseMsg "ssidPrim").asString ∧
        (onWrite initialState (some mixedCredEraseMsg)).pwPrim =
          (getVal mixedCredEraseMsg "pwPrim").asString ∧
        (onWrite initialState (some mixedCredEraseMsg)).ssidSec =
          (getVal mixedCredEraseMsg "ssidSec").asString ∧
        (onWrite initialState (some mixedCredEraseMsg)).pwSec =
          (getVal mixedCredEraseMsg "pwSec").asString ∧
        (onWrite initialState (some mixedCredEraseMsg)).prefs =
          ⟨(getVal mixedCredEraseMsg "ssidPrim").asString,
            (getVal mixedCredEraseMsg "ssidSec").asString,
            (getVal mixedCredEraseMsg "pwPrim").asString,
            (getVal mixedCredEraseMsg "pwSec").asString, true⟩ ∧
        (onWrite initialState (some mixedCredEraseMsg)).hasCredentials = true ∧
        (onWrite initialState (some mixedCredEraseMsg)).connStatusChanged = true ∧
        (onWrite initialState (some mixedCredEraseMsg)).flashErased =
          initialState.flashErased ∧
        (onWrite initialState (some mixedCredEraseMsg)).restarted =
          initialState.restarted) :=
  ⟨by decide, by decide,
    credential_shape_priority initialState mixedCredEraseMsg (by decide)
      (Or.inl (by decide))⟩

/-- Unfolding of `matchCount` over one scan entry. -/
theorem matchCount_cons (prim sec : String) (e : ScanEntry) (rest : List ScanEntry) :
    matchCount prim sec (e :: rest) =
      ((if e.ssid == prim then 1 else 0) + (if e.ssid == sec then 1 else 0)) +
        matchCount prim sec rest := by
  cases hb1 : e.ssid == prim <;> cases hb2 : e.ssid == sec <;>
    simp [matchCount, List.countP_cons, hb1, hb2] <;> omega

/-- One loop iteration bumps `foundAP` by the entry's match count,
wrapping at the byte width. -/
theorem scanStep_foundAP (prim sec : String) (st : ScanState) (e : ScanEntry)
    (h : st.foundAP < 256) :
    (scanStep prim sec st e).foundAP =
      (st.foundAP +
        ((if e.ssid == prim then 1 else 0) + (if e.ssid == sec then 1 else 0))) % 256 := by
  unfold scanStep
  cases hb1 : e.ssid == prim <;> cases hb2 : e.ssid == sec <;>
    simp [hb1, hb2] <;> omega

/-- The `foundAP` byte stays below 256 across one iteration. -/
theorem scanStep_foundAP_lt (prim sec : String) (st : ScanState) (e : ScanEntry)
    (h : st.foundAP < 256) :
    (scanStep prim sec st e).foundAP < 256 := by
  unfold scanStep
  cases hb1 : e.ssid == prim <;> cases hb2 : e.ssid == sec <;>
    simp [hb1, hb2] <;> omega

/-- One loop iteration sets `foundPrim` exactly on a primary match. -/
theorem scanStep_foundPrim (prim sec : String) (st : ScanState) (e : ScanEntry) :
    (scanStep prim sec st e).foundPrim = (st.foundPrim || e.ssid == prim) := by
  unfold scanStep
  cases hb1 : e.ssid == prim <;> cases hb2 : e.ssid == sec <;> simp [hb1, hb2]

/-- One loop iteration overwrites `rssiPrim` exactly on a primary match. -/
theorem scanStep_rssiPrim (prim sec : String) (st : ScanState) (e : ScanEntry) :
    (scanStep prim sec st e).rssiPrim =
      (if e.ssid == prim then toInt8 e.rssi else st.rssiPrim) := by
  unfold scanStep
  cases hb1 : e.ssid == prim <;> cases hb2 : e.ssid == sec <;> simp [hb1, hb2]

/-- One loop iteration overwrites `rssiSec` exactly on a secondary match. -/
theorem scanStep_rssiSec (prim sec : String) (st : ScanState) (e : ScanEntry) :
    (scanStep prim sec st e).rssiSec =
      (if e.ssid == sec then toInt8 e.rssi else st.rssiSec) := by
  unfold scanStep
  cases hb1 : e.ssid == prim <;> cases hb2 : e.ssid == sec <;> simp [hb1, hb2]

/-- The loop's `byte foundAP` counter equals the number of `strcmp`
matches, modulo the byte width. -/
theorem scanFold_foundAP (prim sec : String) (entries : List ScanEntry)
    (st : ScanState) (h : st.foundAP < 256) :
    (entries.foldl (scanStep prim sec) st).foundAP =
      (st.foundAP + matchCount prim sec entries) % 256 := by
  induction entries generalizing st with
  | nil => simp [matchCount, Nat.mod_eq_of_lt h]
  | cons e rest ih =>
    rw [List.foldl_cons, matchCount_cons, ih _ (scanStep_foundAP_lt prim sec st e h),
      scanStep_foundAP prim sec st e h]
    cases hb1 : e.ssid == prim <;> cases hb2 : e.ssid == sec <;>
      simp [hb1, hb2] <;> omega

/-- The loop's `foundPrim` flag is set exactly when some scan entry
matches the primary SSID. -/
theorem scanFold_foundPrim (prim sec : String) (entries : List ScanEntry)
    (st : ScanState) :
    (entries.foldl (scanStep prim sec) st).foundPrim =
      (st.foundPrim || entries.any (fun e => e.ssid == prim)) := by
  induction entries generalizing st with
  | nil => simp
  | cons e rest ih =>
    rw [List.foldl_cons, ih, scanStep_foundPrim]
    simp [Bool.or_assoc]

/-- The loop's recorded primary RSSI is the `int8_t` value of the last
matching entry, or the starting value when none matches. -/
theorem scanFold_rssiPrim (prim sec : String) (entries : List ScanEntry)
    (st : ScanState) :
    (entries.foldl (scanStep prim sec) st).rssiPrim =
      ((entries.filter (fun e => e.ssid == prim)).map
        (fun e => toInt8 e.rssi)).getLastD st.rssiPrim := by
  induction entries generalizing st with
  | nil => rfl
  | cons e rest ih =>
    rw [List.foldl_cons, ih, scanStep_rssiPrim]
    cases hb1 : e.ssid == prim with
    | false =>
      rw [if_neg (by simp [hb1]), List.filter_cons_of_neg (by simp [hb1])]
    | true =>
      rw [if_pos rfl, List.filter_cons_of_pos (by simp [hb1]), List.map_cons,
        List.getLastD_cons]

/-- The loop's recorded secondary RSSI is the `int8_t` value of the
last matching entry, or the starting value when none matches. -/
theorem scanFold_rssiSec (prim sec : String) (entries : List ScanEntry)
    (st : ScanState) :
    (entries.foldl (scanStep prim sec) st).rssiSec =
      ((entries.filter (fun e => e.ssid == sec)).map
        (fun e => toInt8 e.rssi)).getLastD st.rssiSec := by
  induction entries generalizing st with
  | nil => rfl
  | cons e rest ih =>
    rw [List.foldl_cons, ih, scanStep_rssiSec]
    cases hb2 : e.ssid == sec with
    | false =>
      rw [if_neg (by simp [hb2]), List.filter_cons_of_neg (by simp [hb2])]
    | true =>
      rw [if_pos rfl, List.filter_cons_of_pos (by simp [hb2]), List.map_cons,
        List.getLastD_cons]

/-- When the match counter reaches at least 2 the `switch` falls into
its default case: success, with the strict RSSI comparison deciding the
candidate. -/
theorem selectOutcome_default (prim sec : String) (entries : List ScanEntry)
    (r0 s0 : Int) (u0 : Bool)
    (h2 : 2 ≤ (scanLoop prim sec entries r0 s0).foundAP) :
    selectOutcome prim sec entries r0 s0 u0 =
      ⟨true, decide ((scanLoop prim sec entries r0 s0).rssiPrim >
        (scanLoop prim sec entries r0 s0).rssiSec)⟩ := by
  unfold selectOutcome
  obtain ⟨m, hm⟩ : ∃ m, (scanLoop prim sec entries r0 s0).foundAP = m + 2 :=
    ⟨(scanLoop prim sec entries r0 s0).foundAP - 2, by omega⟩
  rw [hm]

/-- C2 counterexample: with both candidates present at equal strength
(`[("A",-50), ("B",-50)]`, primary "A", secondary "B"), the code's
strict `rssiPrim > rssiSec` comparison is false on the tie, so the tie
resolves to the *secondary* candidate, not the primary one the claim
states. -/
theorem tie_break_counterexample :
    selectOutcome "A" "B" [⟨"A", -50⟩, ⟨"B", -50⟩] 0 0 true =
      ⟨true, false⟩ := by
  decide

/-- C2 (amended): when both candidate SSIDs are found in the scan
results (fewer than 256 total matches) and the recorded signal
strengths are equal, the outcome is found with `usePrimary = false`:
the strict `>` comparison makes the tie resolve to the secondary
candidate. -/
theorem tie_break_favors_secondary (prim sec : String) (entries : List ScanEntry)
    (r0 s0 : Int) (u0 : Bool)
    (hp : entries.any (fun e => e.ssid == prim) = true)
    (hs : entries.any (fun e => e.ssid == sec) = true)
    (hlt : matchCount prim sec entries < 256)
    (heq : (scanLoop prim sec entries r0 s0).rssiPrim =
      (scanLoop prim sec entries r0 s0).rssiSec) :
    selectOutcome prim sec entries r0 s0 u0 = ⟨true, false⟩ := by
  have hA : (scanLoop prim sec entries r0 s0).foundAP =
      matchCount prim sec entries := by
    rw [scanLoop, scanFold_foundAP prim sec entries _ (by show (0 : Nat) < 256; omega)]
    simpa using Nat.mod_eq_of_lt hlt
  have hcp : 0 < entries.countP (fun e => e.ssid == prim) :=
    List.countP_pos_iff.mpr (by simpa using hp)
  have hcs : 0 < entries.countP (fun e => e.ssid == sec) :=
    List.countP_pos_iff.mpr (by simpa using hs)
  have h2 : 2 ≤ (scanLoop prim sec entries r0 s0).foundAP := by
    rw [hA]; unfold matchCount; omega
  rw [selectOutcome_default prim sec entries r0 s0 u0 h2, heq]
  simp

/-- Witness for the amended C2 on the tie `[("A",-50), ("B",-50)]`. -/
theorem tie_break_favors_secondary_witness :
    List.any [(⟨"A", -50⟩ : ScanEntry), ⟨"B", -50⟩]
        (fun e => e.ssid == "A") = true ∧
      List.any [(⟨"A", -50⟩ : ScanEntry), ⟨"B", -50⟩]
        (fun e => e.ssid == "B") = true ∧
      matchCount "A" "B" [⟨"A", -50⟩, ⟨"B", -50⟩] < 256 ∧
      (scanLoop "A" "B" [⟨"A", -50⟩, ⟨"B", -50⟩] 0 0).rssiPrim =
        (scanLoop "A" "B" [⟨"A", -50⟩, ⟨"B", -50⟩] 0 0).rssiSec ∧
      selectOutcome "A" "B" [⟨"A", -50⟩, ⟨"B", -50⟩] 0 0 false = ⟨true, false⟩ :=
  ⟨by decide, by decide, by decide, by decide,
    tie_break_favors_secondary "A" "B" [⟨"A", -50⟩, ⟨"B", -50⟩] 0 0 false
      (by decide) (by decide) (by decide) (by decide)⟩

/-- C6 counterexample: with the primary SSID "A" appearing twice, at
-40 dBm first and -70 dBm second, the loop records -70 — the last
matching entry's strength — while the claim's "first one observed"
is -40. -/
theorem recorded_rssi_counterexample :
    (scanLoop "A" "B" [⟨"A", -40⟩, ⟨"A", -70⟩] 0 0).rssiPrim ≠
      firstMatchRssi "A" [⟨"A", -40⟩, ⟨"A", -70⟩] 0 := by
  decide

/-- C6 (amended): for each configured candidate, the signal strength
recorded by the scan loop (and later used for the tie-break) is the
*last* one observed among the scan entries whose SSID exactly matches
that candidate (each match overwrites the recorded value), falling back
to the variable's initial value when no entry matches. -/
theorem recorded_rssi_is_last (prim sec : String) (entries : List ScanEntry)
    (r0 s0 : Int) :
    (scanLoop prim sec entries r0 s0).rssiPrim = lastMatchRssi prim entries r0 ∧
      (scanLoop prim sec entries r0 s0).rssiSec = lastMatchRssi sec entries s0 :=
  ⟨scanFold_rssiPrim prim sec entries ⟨0, false, r0, s0⟩,
    scanFold_rssiSec prim sec entries ⟨0, false, r0, s0⟩⟩

/-- C7 counterexample: with only the secondary candidate appearing —
but twice (`[("B",-30), ("B",-40)]`) — `foundAP` reaches 2 and the
switch compares the never-assigned `rssiPrim` (modelled by its initial
value, here 0) against the recorded `rssiSec = -40`, yielding
`usePrimary = true` although only the secondary candidate was present;
the claim predicts `usePrimary = false`. -/
theorem single_candidate_counterexample :
    selectOutcome "A" "B" [⟨"B", -30⟩, ⟨"B", -40⟩] 0 0 true =
      ⟨true, true⟩ := by
  decide

/-- C7 (amended): for every scan result producing exactly one `strcmp`
match in total (so the matched candidate appears in exactly one entry
and the other candidate in none), the outcome is found, with
`usePrimary` true exactly when the match was the primary candidate. -/
theorem single_match_selects_matching (prim sec : String)
    (entries : List ScanEntry) (r0 s0 : Int) (u0 : Bool)
    (h1 : matchCount prim sec entries = 1) :
    selectOutcome prim sec entries r0 s0 u0 =
      ⟨true, entries.any (fun e => e.ssid == prim)⟩ := by
  have hA : (scanLoop prim sec entries r0 s0).foundAP = 1 := by
    rw [scanLoop, scanFold_foundAP prim sec entries _ (by show (0 : Nat) < 256; omega), h1]
    rfl
  have hP : (scanLoop prim sec entries r0 s0).foundPrim =
      entries.any (fun e => e.ssid == prim) := by
    rw [scanLoop, scanFold_foundPrim]
    simp
  unfold selectOutcome
  rw [hA, hP]

/-- Witness for the amended C7: only the secondary candidate present,
once. -/
theorem single_match_selects_matching_witness :
    matchCount "A" "B" [⟨"B", -30⟩] = 1 ∧
      selectOutcome "A" "B" [⟨"B", -30⟩] 0 0 true =
        ⟨true, List.any [(⟨"B", -30⟩ : ScanEntry)] (fun e => e.ssid == "A")⟩ :=
  ⟨by decide,
    single_match_selects_matching "A" "B" [⟨"B", -30⟩] 0 0 true (by decide)⟩

/-- One benign credential-channel operation preserves the
all-or-nothing credential invariant. -/
theorem applyOp_credInv (st : DeviceState) (op : CredOp)
    (hst : credInv st) (hop : goodOp op) :
    credInv (applyOp st op) := by
  cases op with
  | load =>
    rcases hst with hE | hP
    · have hv : st.prefs.valid = false := hE.2.2.2.2.2.2.2.2.2
      left
      simp only [applyOp, setupLoad, hv]
      exact hE
    · obtain ⟨h1, h2, h3, h4, h5, h6, h7, h8, h9, h10⟩ := hP
      right
      simp only [applyOp, setupLoad, h10, if_true]
      rw [if_neg]
      · exact ⟨h6, h8, h7, h9, rfl, h6, h7, h8, h9, h10⟩
      · simp [h6, h7, h8]
  | write p =>
    cases p with
    | none => exact hst
    | some j =>
      by_cases h4 : fourKeyShape j = true
      · obtain ⟨n1, n2, n3, n4⟩ := hop h4
        right
        simp only [applyOp, onWrite, h4, if_true]
        exact ⟨n1, n2, n3, n4, rfl, n1, n3, n2, n4, rfl⟩
      · simp only [Bool.not_eq_true] at h4
        by_cases he : containsKey j "erase" = true
        · left
          simp only [applyOp, onWrite, h4, he]
          exact ⟨rfl, rfl, rfl, rfl, rfl, rfl, rfl, rfl, rfl, rfl⟩
        · simp only [Bool.not_eq_true] at he
          by_cases hr : containsKey j "reset" = true
          · simp only [applyOp, onWrite, h4, he, hr]
            exact hst
          · simp only [Bool.not_eq_true] at hr
            simp only [applyOp, onWrite, h4, he, hr]
            exact hst

/-- The all-or-nothing credential invariant survives any sequence of
benign operations. -/
theorem credInv_foldl (ops : List CredOp) (st : DeviceState)
    (hst : credInv st) (h : ∀ op ∈ ops, goodOp op) :
    credInv (ops.foldl applyOp st) := by
  induction ops generalizing st with
  | nil => exact hst
  | cons op rest ih =>
    rw [List.foldl_cons]
    exact ih _ (applyOp_credInv st op hst (h op (List.mem_cons_self op rest)))
      (fun o ho => h o (List.mem_cons_of_mem _ ho))

/-- C5 counterexample: a credential-set message carrying an empty
`ssidPrim` value is stored verbatim and marked valid, producing a state
that is neither fully empty (its passwords are non-empty) nor fully
populated (its primary SSID is empty) — the claimed invariant fails. -/
theorem partial_credentials_counterexample :
    ¬ credInv (applyOp initialState (CredOp.write (some partialCredMsg))) := by
  decide

/-- C5 (amended): after every sequence of credential-channel operations
(credential-set messages, erase directives, startup loads) starting
from the empty state, the credential state is either fully empty or
fully populated — provided every credential-set message processed
carries four non-empty field values; the handler stores field values
verbatim and marks them valid even when some are empty. -/
theorem credentials_all_or_nothing (ops : List CredOp)
    (h : ∀ op ∈ ops, goodOp op) :
    credInv (ops.foldl applyOp initialState) :=
  credInv_foldl ops initialState
    (Or.inl ⟨rfl, rfl, rfl, rfl, rfl, rfl, rfl, rfl, rfl, rfl⟩) h

/-- Witness for the amended C5 on the sequence set-credentials, load,
erase. -/
theorem credentials_all_or_nothing_witness :
    (∀ op ∈ sampleOps, goodOp op) ∧
      credInv (sampleOps.foldl applyOp initialState) :=
  ⟨by decide, credentials_all_or_nothing sampleOps (by decide)⟩

end Esp32WifiBle
